import Mathlib

/-!
# Verification of the viu preview caching subsystem

Shallow embedding of the preview-cache code of the `viu` repository:

* `viu_media/cli/utils/preview.py` (rofi image caching, preview entry
  points, the module-level worker-manager global, `PreviewContext`);
* `viu_media/assets/scripts/fzf/preview.py` (the external fzf preview
  renderer and its `hash_id` cache-key reconstruction);
* `viu_media/assets/scripts/fzf/dynamic_preview.py` (the dynamic-search
  preview renderer and its `download_image`).

Python strings are modelled as `List Char`, bytes as `List Nat`
(each entry `< 256`), and `hashlib.sha256` is implemented in full
(FIPS 180-4) over those byte lists.
-/

namespace Viu

/-- Python `str` values are modelled as lists of characters. -/
abbrev PyStr := List Char

/-- Byte strings (`bytes`): lists of naturals, each below 256. -/
abbrev Bytes := List Nat

/-- Convert a Lean string literal to the `PyStr` model. -/
def pystr (s : String) : PyStr := s.data

/-! ## SHA-256 (`hashlib.sha256(...).hexdigest()`)

A direct implementation of FIPS 180-4 on `Nat`, with explicit
reduction modulo `2 ^ 32` wherever 32-bit overflow matters. -/

/-- The modulus for 32-bit words, 2 ^ 32. -/
def w32 : Nat := 4294967296

/-- Rotate a 32-bit word right by `n` bits. -/
def rotr (n x : Nat) : Nat := ((x >>> n) ||| (x <<< (32 - n))) % w32

/-- The SHA-256 `Ch` function (`(x ∧ y) ⊕ (¬x ∧ z)` on 32-bit words). -/
def ch32 (x y z : Nat) : Nat := (x &&& y) ^^^ ((x ^^^ 4294967295) &&& z)

/-- The SHA-256 `Maj` function. -/
def maj32 (x y z : Nat) : Nat := (x &&& y) ^^^ (x &&& z) ^^^ (y &&& z)

/-- Big sigma-0. -/
def bsig0 (x : Nat) : Nat := rotr 2 x ^^^ rotr 13 x ^^^ rotr 22 x

/-- Big sigma-1. -/
def bsig1 (x : Nat) : Nat := rotr 6 x ^^^ rotr 11 x ^^^ rotr 25 x

/-- Small sigma-0. -/
def ssig0 (x : Nat) : Nat := rotr 7 x ^^^ rotr 18 x ^^^ (x >>> 3)

/-- Small sigma-1. -/
def ssig1 (x : Nat) : Nat := rotr 17 x ^^^ rotr 19 x ^^^ (x >>> 10)

/-- Initial hash state: the eight constants of FIPS 180-4 section 5.3.3, written in decimal. -/
def shaH0 : List Nat :=
  [1779033703, 3144134277, 1013904242, 2773480762,
   1359893119, 2600822924, 528734635, 1541459225]

/-- Round constants: the 64 words of FIPS 180-4 section 4.2.2, written in decimal. -/
def shaK : List Nat :=
  [1116352408, 1899447441, 3049323471, 3921009573, 961987163, 1508970993,
   2453635748, 2870763221, 3624381080, 310598401, 607225278, 1426881987,
   1925078388, 2162078206, 2614888103, 3248222580, 3835390401, 4022224774,
   264347078, 604807628, 770255983, 1249150122, 1555081692, 1996064986,
   2554220882, 2821834349, 2952996808, 3210313671, 3336571891, 3584528711,
   113926993, 338241895, 666307205, 773529912, 1294757372, 1396182291,
   1695183700, 1986661051, 2177026350, 2456956037, 2730485921, 2820302411,
   3259730800, 3345764771, 3516065817, 3600352804, 4094571909, 275423344,
   430227734, 506948616, 659060556, 883997877, 958139571, 1322822218,
   1537002063, 1747873779, 1955562222, 2024104815, 2227730452, 2361852424,
   2428436474, 2756734187, 3204031479, 3329325298]

/-- Big-endian 8-byte encoding of a bit length. -/
def be64 (n : Nat) : Bytes :=
  [(n >>> 56) % 256, (n >>> 48) % 256, (n >>> 40) % 256, (n >>> 32) % 256,
   (n >>> 24) % 256, (n >>> 16) % 256, (n >>> 8) % 256, n % 256]

/-- Big-endian 4-byte encoding of a 32-bit word. -/
def be32 (n : Nat) : Bytes :=
  [(n >>> 24) % 256, (n >>> 16) % 256, (n >>> 8) % 256, n % 256]

/-- SHA-256 padding: append `0x80`, zeros to 56 mod 64, then the
64-bit big-endian bit length. -/
def padMessage (m : Bytes) : Bytes :=
  m ++ [0x80] ++ List.replicate ((119 - m.length % 64) % 64) 0 ++ be64 (m.length * 8)

/-- Split a byte list into 64-byte blocks (fuel-driven structural
recursion; the fuel `l.length` always suffices since each step drops
64 bytes of a nonempty list). -/
def toBlocksGo : Nat → Bytes → List Bytes
  | _, [] => []
  | 0, _ => []
  | fuel + 1, l => l.take 64 :: toBlocksGo fuel (l.drop 64)

/-- Split a byte list into 64-byte blocks. -/
def toBlocks (l : Bytes) : List Bytes := toBlocksGo l.length l

/-- Parse a block into big-endian 32-bit words. -/
def toWords : Bytes → List Nat
  | b0 :: b1 :: b2 :: b3 :: rest => (((b0 * 256 + b1) * 256 + b2) * 256 + b3) :: toWords rest
  | _ => []

/-- One newly scheduled word, computed from the tail of the schedule so far. -/
def nextWord (w : List Nat) : Nat :=
  (ssig1 (w.getD (w.length - 2) 0) + w.getD (w.length - 7) 0 +
   ssig0 (w.getD (w.length - 15) 0) + w.getD (w.length - 16) 0) % w32

/-- Extend the 16-word schedule by `n` further words. -/
def extendSchedule : List Nat → Nat → List Nat
  | w, 0 => w
  | w, n + 1 => extendSchedule (w ++ [nextWord w]) n

/-- The full 64-entry message schedule of one block. -/
def msgSchedule (block : Bytes) : List Nat := extendSchedule (toWords block) 48

/-- One round of the SHA-256 compression function on the eight
working registers. -/
def compressRound (regs : List Nat) (kt wt : Nat) : List Nat :=
  match regs with
  | [a, b, c, d, e, f, g, h] =>
    let t1 := (h + bsig1 e + ch32 e f g + kt + wt) % w32
    let t2 := (bsig0 a + maj32 a b c) % w32
    [(t1 + t2) % w32, a, b, c, (d + t1) % w32, e, f, g]
  | other => other

/-- Compress one 64-byte block into the running hash state. -/
def compressBlock (hs : Bytes) (block : Bytes) : List Nat :=
  let regs := ((shaK.zip (msgSchedule block)).foldl
    (fun r kw => compressRound r kw.1 kw.2) hs)
  List.zipWith (fun x y => (x + y) % w32) hs regs

/-- The eight 32-bit words of the SHA-256 digest of a message. -/
def sha256Words (m : Bytes) : List Nat := (toBlocks (padMessage m)).foldl compressBlock shaH0

/-- The 32-byte SHA-256 digest of a message. -/
def sha256 (m : Bytes) : Bytes := (sha256Words m).foldr (fun wd acc => be32 wd ++ acc) []

/-- One lowercase hexadecimal digit. -/
def hexDigit (n : Nat) : Char := if n < 10 then Char.ofNat (48 + n) else Char.ofNat (87 + n)

/-- Lowercase hexadecimal rendering of a byte list (`.hexdigest()`). -/
def hexOfBytes (bs : Bytes) : PyStr := bs.foldr (fun b acc => hexDigit (b / 16) :: hexDigit (b % 16) :: acc) []

/-- Model of `sha256(m).hexdigest()` as one function from bytes to a hex string. -/
def sha256hex (m : Bytes) : PyStr := hexOfBytes (sha256 m)

/-- UTF-8 encoding of one code point (`str.encode("utf-8")`, per char). -/
def utf8Char (c : Char) : Bytes :=
  let n := c.toNat
  if n < 128 then [n]
  else if n < 2048 then [192 ||| (n >>> 6), 128 ||| (n &&& 63)]
  else if n < 65536 then
    [224 ||| (n >>> 12), 128 ||| ((n >>> 6) &&& 63), 128 ||| (n &&& 63)]
  else
    [240 ||| (n >>> 18), 128 ||| ((n >>> 12) &&& 63),
     128 ||| ((n >>> 6) &&& 63), 128 ||| (n &&& 63)]

/-- UTF-8 encoding of a Python string (`s.encode("utf-8")`). -/
def utf8 (s : PyStr) : Bytes := s.foldr (fun c acc => utf8Char c ++ acc) []

/-! ## Cache-key derivation

Four key-derivation schemes appear in the source:

* `_get_image` (cli/utils/preview.py, line 46) hashes the bare English
  title — no category component at all;
* `_get_episode_image` (cli/utils/preview.py, lines 98-100) hashes
  `f"{title}_Episode_{episode}"`;
* the fzf renderer template (assets/scripts/fzf/preview.py, lines
  27-32) computes `f"{PREFIX}-{sha256((KEY + TITLE)).hexdigest()}"` —
  the category `PREFIX` is attached to the hex digest, outside the hash;
* the dynamic-search renderer (dynamic_preview.py, line 326) computes
  `f"anime-{sha256(SELECTED_TITLE).hexdigest()}"`. -/

/-- Model of `_get_image`:
`hash_id = sha256(item.title.english.encode("utf-8")).hexdigest()`. -/
def rofiAnimeKey (titleEnglish : PyStr) : PyStr := sha256hex (utf8 titleEnglish)

/-- Model of `_get_episode_image`:
`hash_id = sha256(f"{media_item.title.english}_Episode_{episode}".encode("utf-8")).hexdigest()`. -/
def rofiEpisodeKey (titleEnglish episode : PyStr) : PyStr :=
  sha256hex (utf8 (titleEnglish ++ pystr "_Episode_" ++ episode))

/-- fzf preview.py line 29: `KEY = KEY + "-" if KEY else KEY`. -/
def fzfKeyArg (key : PyStr) : PyStr := if key.isEmpty then key else key ++ pystr "-"

/-- fzf preview.py line 32:
`hash_id = f"{PREFIX}-{sha256((KEY + TITLE).encode('utf-8')).hexdigest()}"`. -/
def fzfHashId (cat rawKey title : PyStr) : PyStr :=
  cat ++ pystr "-" ++ sha256hex (utf8 (fzfKeyArg rawKey ++ title))

/-- dynamic_preview.py line 326:
`hash_id = f"anime-{sha256(SELECTED_TITLE.encode('utf-8')).hexdigest()}"`. -/
def dynamicHashId (selectedTitle : PyStr) : PyStr :=
  pystr "anime-" ++ sha256hex (utf8 selectedTitle)

/-- The spec's key-derivation contract, stated as a definition only for
refinement comparison (spec §4.1: "concatenate category prefix and
identity parts with an unambiguous separator, then apply a
cryptographic hash (e.g., SHA-256) and hex-encode"): the category is
part of the hashed input, so the whole key is one hex digest. -/
def specDerive (cat : PyStr) (parts : List PyStr) (sep : PyStr) : PyStr :=
  sha256hex (utf8 (List.intercalate sep (cat :: parts)))

/-- The category prefixes the repository injects into the fzf preview
script (`PREFIX` replacement values in cli/utils/preview.py), plus the
hard-coded "anime" prefix of the dynamic-search renderer. -/
def usedCategories : List PyStr :=
  [pystr "search-result", pystr "episode", pystr "character",
   pystr "review", pystr "airing-schedule", pystr "anime"]

/-! ## Filesystem model

Files are an association list from path to contents.  Writers emit a
trace of filesystem operations; `statesDuring` collects every state an
independent reader could observe while the trace executes, including
the truncated intermediate contents that are visible *during* an
in-place file write.  A `rename` is atomic: it contributes no
intermediate state. -/

/-- File paths. -/
abbrev FileName := PyStr

/-- Filesystem contents: association list from path to file bytes. -/
abbrev FS := List (FileName × Bytes)

/-- Contents at a path (`Path.exists` / file read). -/
def fsLookup (p : FileName) : FS → Option Bytes
  | [] => none
  | (q, b) :: rest => if q = p then some b else fsLookup p rest

/-- Delete a path. -/
def fsRemove (p : FileName) : FS → FS
  | [] => []
  | (q, b) :: rest => if q = p then fsRemove p rest else (q, b) :: fsRemove p rest

/-- Create or replace a file. -/
def fsSet (p : FileName) (b : Bytes) (fs : FS) : FS := (p, b) :: fsRemove p fs

/-- One filesystem operation of a writer's trace. -/
inductive FsOp where
  | write (p : FileName) (b : Bytes)
  | remove (p : FileName)
  | rename (src dst : FileName)
deriving DecidableEq

/-- Effect of one operation. -/
def applyOp (fs : FS) : FsOp → FS
  | .write p b => fsSet p b fs
  | .remove p => fsRemove p fs
  | .rename s d =>
    match fsLookup s fs with
    | none => fs
    | some b => fsSet d b (fsRemove s fs)

/-- Effect of a whole trace. -/
def applyOps (fs : FS) (ops : List FsOp) : FS := ops.foldl applyOp fs

/-- All take-prefixes of a byte string, `[]` and the full string included. -/
def prefixesOf (b : Bytes) : List Bytes :=
  (List.range (b.length + 1)).map (fun n => b.take n)

/-- States observable in the middle of one operation: a plain file
write exposes every truncated prefix of the data at the target path;
`remove` and `rename` are atomic. -/
def midStates (fs : FS) : FsOp → List FS
  | .write p b => (prefixesOf b).map (fun pre => fsSet p pre fs)
  | .remove _ => []
  | .rename _ _ => []

/-- Every filesystem state a concurrent reader can observe while a
trace executes, start and end states included. -/
def statesDuring (fs : FS) : List FsOp → List FS
  | [] => [fs]
  | op :: rest => fs :: (midStates fs op ++ statesDuring (applyOp fs op) rest)

/-- Everything a reader polling path `p` can observe during a trace. -/
def observations (fs : FS) (ops : List FsOp) (p : FileName) : List (Option Bytes) :=
  (statesDuring fs ops).map (fsLookup p)

/-! ## Artifact writers -/

/-- Modelled from the spec: `AtomicWriter` (`viu_media/core/utils/file.py`)
is not under src/ — only its import and call sites are.  Per the spec
(§4.2 ArtifactStore / glossary "Atomic write"), the writer uses "a
temporary path in the same directory"; the model appends a `".tmp"`
suffix, which stays in the directory of the final path. -/
def tmpName (p : FileName) : FileName := p ++ pystr ".tmp"

/-- Modelled from the spec: the filesystem trace of one `AtomicWriter`
context (`viu_media/core/utils/file.py`, absent from src/) that wrote
`written` bytes before exiting.  Spec §4.2: `write` "writes to a
temporary path in the same directory, then performs an atomic rename
into the final path"; "on failure (I/O error, producer error), no
partial file is left at the final path, and the temporary file is
removed". -/
def atomicWriterOps (finalPath : FileName) (written : Bytes) (failed : Bool) : List FsOp :=
  if failed then [.write (tmpName finalPath) written, .remove (tmpName finalPath)]
  else [.write (tmpName finalPath) written, .rename (tmpName finalPath) finalPath]

/-- Model of `download_image` of the dynamic-search renderer
(assets/scripts/fzf/dynamic_preview.py, lines 101-114): on success the
downloaded bytes go straight to the final path
(`output_path.write_bytes(data)`) — no temporary file, no rename; on
any exception nothing is written and the failure is silent. -/
def download_image_ops (output_path : FileName) (data : Bytes) (ok : Bool) : List FsOp :=
  if ok then [.write output_path data] else []

/-- Model of `download_image`'s return value (`True` exactly on success). -/
def download_image_ret (ok : Bool) : Bool := ok

/-! ## The rofi image cachers (`_get_image`, `_get_episode_image`)

Data shapes follow `viu_media/libs/media_api/types.py`:
`MediaTitle.english : str` (required), `MediaItem.cover_image :
Optional[MediaImage]` with `MediaImage.large : str` (required),
`MediaItem.streaming_episodes : Dict[str, StreamingEpisode]` with
`StreamingEpisode.thumbnail : Optional[str]`. -/

/-- Model of `MediaTitle` (fields used by the preview code). -/
structure MediaTitle where
  english : PyStr
deriving DecidableEq

/-- Model of `MediaImage` (field used by the preview code). -/
structure MediaImage where
  large : PyStr
deriving DecidableEq

/-- Model of `StreamingEpisode` (field used by the preview code). -/
structure StreamingEpisode where
  thumbnail : Option PyStr
deriving DecidableEq

/-- Model of `MediaItem` (fields used by the preview code). -/
structure MediaItem where
  title : MediaTitle
  cover_image : Option MediaImage
  streaming_episodes : List (PyStr × StreamingEpisode)
deriving DecidableEq

/-- Python `dict.get`. -/
def pyGet {α : Type} (k : PyStr) : List (PyStr × α) → Option α
  | [] => none
  | (q, v) :: rest => if q = k then some v else pyGet k rest

/-- Observable events of one caching call, in order. -/
inductive NetEv where
  | fetch (url : PyStr)
  | logError (msg : PyStr)
deriving DecidableEq

/-- Outcome of `httpx.stream("GET", url, follow_redirects=True)` plus
the chunked body iteration: `ok chunks` is a successful streamed
download; `fail written msg` is an exception (connection error,
`raise_for_status`, or a mid-stream error) raised after `written`
bytes had already been written through the `AtomicWriter`. -/
inductive FetchResult where
  | ok (chunks : List Bytes)
  | fail (written : Bytes) (msg : PyStr)
deriving DecidableEq

/-- Model of `IMAGES_CACHE_DIR / f"{hash_id}.png"`. -/
def imageArtifactPath (dir key : FileName) : FileName :=
  dir ++ pystr "/" ++ key ++ pystr ".png"

/-- Model of `_get_image` (cli/utils/preview.py, lines 42-66).  `fetch` is the
network oracle.  Returns the Python return value (the path string, or
`""`), the filesystem after the call, and the emitted events. -/
def getImage (dir : FileName) (fetch : PyStr → FetchResult) (item : MediaItem)
    (fs : FS) : PyStr × FS × List NetEv :=
  match item.cover_image with
  | none => (pystr "", fs, [])
  | some cover =>
    let image_path := imageArtifactPath dir (rofiAnimeKey item.title.english)
    if (fsLookup image_path fs).isSome then (image_path, fs, [])
    else if cover.large.isEmpty then (pystr "", fs, [])
    else
      match fetch cover.large with
      | .ok chunks =>
        (image_path, applyOps fs (atomicWriterOps image_path chunks.flatten false),
         [.fetch cover.large])
      | .fail written msg =>
        (pystr "", applyOps fs (atomicWriterOps image_path written true),
         [.fetch cover.large,
          .logError (pystr "Failed to download image " ++ cover.large ++
            pystr ": " ++ msg)])

/-- The common tail of `_get_episode_image` (cli/utils/preview.py,
lines 98-117) once a non-falsy `image_url` has been selected. -/
def episodeImageBody (dir : FileName) (fetch : PyStr → FetchResult)
    (episode : PyStr) (item : MediaItem) (image_url : PyStr) (fs : FS) :
    PyStr × FS × List NetEv :=
  let image_path := imageArtifactPath dir (rofiEpisodeKey item.title.english episode)
  if (fsLookup image_path fs).isSome then (image_path, fs, [])
  else
    match fetch image_url with
    | .ok chunks =>
      (image_path, applyOps fs (atomicWriterOps image_path chunks.flatten false),
       [.fetch image_url])
    | .fail written msg =>
      (pystr "", applyOps fs (atomicWriterOps image_path written true),
       [.fetch image_url,
        .logError (pystr "Failed to download image " ++ image_url ++ pystr " for " ++
          item.title.english ++ pystr ": " ++ msg)])

/-- Model of `_get_episode_image` (cli/utils/preview.py, lines 87-117):
`image_url` comes from the episode's streaming thumbnail when the
(non-empty) `streaming_episodes` dict has the episode, otherwise from
the cover image (returning `""` when there is no cover); a falsy
(`None` or empty) url returns `""` before any cache lookup. -/
def getEpisodeImage (dir : FileName) (fetch : PyStr → FetchResult)
    (episode : PyStr) (item : MediaItem) (fs : FS) : PyStr × FS × List NetEv :=
  let stream? := if item.streaming_episodes.isEmpty then none
    else pyGet episode item.streaming_episodes
  match stream? with
  | some stream =>
    match stream.thumbnail with
    | none => (pystr "", fs, [])
    | some url =>
      if url.isEmpty then (pystr "", fs, [])
      else episodeImageBody dir fetch episode item url fs
  | none =>
    match item.cover_image with
    | none => (pystr "", fs, [])
    | some cover =>
      if cover.large.isEmpty then (pystr "", fs, [])
      else episodeImageBody dir fetch episode item cover.large fs

/-- The `[ _get_image(item) for item in ... ]` comprehension of
`get_rofi_preview` (cli/utils/preview.py, lines 31-39): process a
batch sequentially, threading the filesystem, collecting each item's
returned path and all events. -/
def runBatch (dir : FileName) (fetch : PyStr → FetchResult) :
    List MediaItem → FS → List PyStr × FS × List NetEv
  | [], fs => ([], fs, [])
  | item :: rest, fs =>
    let r := getImage dir fetch item fs
    let rr := runBatch dir fetch rest r.2.1
    (r.1 :: rr.1, rr.2.1, r.2.2 ++ rr.2.2)

/-- The `[ _get_episode_image(episode, media_item) for episode in ... ]`
comprehension of `get_rofi_episode_preview` (cli/utils/preview.py,
lines 69-84): process a batch of episodes of one media item
sequentially, threading the filesystem, collecting each episode's
returned path and all events. -/
def runEpisodeBatch (dir : FileName) (fetch : PyStr → FetchResult) :
    List PyStr → MediaItem → FS → List PyStr × FS × List NetEv
  | [], _, fs => ([], fs, [])
  | ep :: rest, item, fs =>
    let r := getEpisodeImage dir fetch ep item fs
    let rr := runEpisodeBatch dir fetch rest item r.2.1
    (r.1 :: rr.1, rr.2.1, r.2.2 ++ rr.2.2)

/-- Number of network fetches in an event list. -/
def fetchCount (evs : List NetEv) : Nat :=
  (evs.filter (fun e => match e with | .fetch _ => true | _ => false)).length

/-! ## Preview entry points (cli/utils/preview.py, lines 272-604)

The fzf-path entry points render a script template, write it to the
previews cache, and return the command string that runs it; the
attempt to start background caching is wrapped in `try/except`, so its
outcome is an input (`Except String Unit`) of the model.  Strings here
are Lean `String`s; braces in Python f-string output are written with
their character codes. -/

/-- The fields of `AppConfig` read by the preview entry points. -/
structure AppCfg where
  selector : String
  preview : String
  image_renderer : String
  preview_header_color : String
  preview_separator_color : String
  preview_scale_up : Bool
deriving DecidableEq

/-- Process environment of the module: interpreter path and cache
directories (`sys.executable`, `PREVIEWS_CACHE_DIR`,
`IMAGES_CACHE_DIR`, `INFO_CACHE_DIR`) and the preview script template
text read at import time. -/
structure PrevEnv where
  pythonExe : String
  previewsCacheDir : String
  imagesCacheDir : String
  infoCacheDir : String
  templateScript : String
deriving DecidableEq

/-- Model of `str(b)` for a Python bool. -/
def pyBoolStr (b : Bool) : String := if b then "True" else "False"

/-- Model of `",".join(s.split(","))`. -/
def splitJoinComma (s : String) : String := String.intercalate "," (s.splitOn ",")

/-- The `for key, value in replacements.items(): script.replace(...)`
loop: each placeholder `{KEY}` is replaced by its value. -/
def renderTemplate (tmpl : String) (reps : List (String × String)) : String :=
  reps.foldl (fun acc kv => acc.replace ("\x7b" ++ kv.1 ++ "\x7d") kv.2) tmpl

/-- Model of `f"{Path(sys.executable).as_posix()} {preview_file.as_posix()} {{}}"`. -/
def previewCommand (env : PrevEnv) (fileName : String) : String :=
  env.pythonExe ++ " " ++ env.previewsCacheDir ++ "/" ++ fileName ++ " \x7b\x7d"

/-- The replacement table shared by the entry points, instantiated
with the entry point's `PREFIX` and `KEY` values. -/
def previewReplacements (env : PrevEnv) (cfg : AppCfg) (pfx keyVal : String) :
    List (String × String) :=
  [("PREVIEW_MODE", cfg.preview),
   ("IMAGE_CACHE_DIR", env.imagesCacheDir),
   ("INFO_CACHE_DIR", env.infoCacheDir),
   ("IMAGE_RENDERER", cfg.image_renderer),
   ("HEADER_COLOR", splitJoinComma cfg.preview_header_color),
   ("SEPARATOR_COLOR", splitJoinComma cfg.preview_separator_color),
   ("PREFIX", pfx),
   ("KEY", keyVal),
   ("SCALE_UP", pyBoolStr cfg.preview_scale_up)]

/-- Result of one entry point: the Python return value, the files it
wrote (path, contents), and the log lines it emitted. -/
structure EntryResult where
  ret : String
  writes : List (String × String)
  logs : List String
deriving DecidableEq

/-- Model of `get_anime_preview` (lines 272-332).  `rofiResult` stands for the
`get_rofi_preview` result of the rofi branch; `caching` is the outcome
of starting background caching (exception or success), always caught. -/
def get_anime_previewM (env : PrevEnv) (cfg : AppCfg) (rofiResult : String)
    (caching : Except String Unit) : EntryResult :=
  if cfg.selector = "rofi" then ⟨rofiResult, [], []⟩
  else
    { ret := previewCommand env "search-result-preview-script.py"
      writes := [(env.previewsCacheDir ++ "/search-result-preview-script.py",
        renderTemplate env.templateScript (previewReplacements env cfg "search-result" ""))]
      logs := match caching with
        | .ok _ => ["Started background caching for anime previews"]
        | .error e => ["Failed to start background caching: " ++ e] }

/-- Model of `get_episode_preview` (lines 335-392); its `KEY` replacement is the
title with double quotes replaced by single quotes. -/
def get_episode_previewM (env : PrevEnv) (cfg : AppCfg) (titleEnglish : String)
    (rofiResult : String) (caching : Except String Unit) : EntryResult :=
  if cfg.selector = "rofi" then ⟨rofiResult, [], []⟩
  else
    { ret := previewCommand env "episode-preview-script.py"
      writes := [(env.previewsCacheDir ++ "/episode-preview-script.py",
        renderTemplate env.templateScript
          (previewReplacements env cfg "episode" (titleEnglish.replace "\x22" "\x27")))]
      logs := match caching with
        | .ok _ => ["Started background caching for episode previews"]
        | .error e => ["Failed to start episode background caching: " ++ e] }

/-- Model of `get_character_preview` (lines 395-440). -/
def get_character_previewM (env : PrevEnv) (cfg : AppCfg)
    (caching : Except String Unit) : EntryResult :=
  { ret := previewCommand env "character-preview-script.py"
    writes := [(env.previewsCacheDir ++ "/character-preview-script.py",
      renderTemplate env.templateScript (previewReplacements env cfg "character" ""))]
    logs := match caching with
      | .ok _ => ["Started background caching for character previews"]
      | .error e => ["Failed to start episode background caching: " ++ e] }

/-- Model of `get_review_preview` (lines 443-488). -/
def get_review_previewM (env : PrevEnv) (cfg : AppCfg)
    (caching : Except String Unit) : EntryResult :=
  { ret := previewCommand env "review-preview-script.py"
    writes := [(env.previewsCacheDir ++ "/review-preview-script.py",
      renderTemplate env.templateScript (previewReplacements env cfg "review" ""))]
    logs := match caching with
      | .ok _ => ["Started background caching for review previews"]
      | .error e => ["Failed to start episode background caching: " ++ e] }

/-- Model of `get_airing_schedule_preview` (lines 491-537): generates and writes
the script like the others, but its final command is commented out in
the source ("disabled cause not very useful") and the function returns
the empty string. -/
def get_airing_schedule_previewM (env : PrevEnv) (cfg : AppCfg)
    (caching : Except String Unit) : EntryResult :=
  { ret := ""
    writes := [(env.previewsCacheDir ++ "/airing-schedule-preview-script.py",
      renderTemplate env.templateScript
        (previewReplacements env cfg "airing-schedule" ""))]
    logs := match caching with
      | .ok _ => ["Started background caching for airing schedule previews"]
      | .error e => ["Failed to start episode background caching: " ++ e] }

/-! ## The module-level manager global (cli/utils/preview.py, lines 136-626)

`_preview_manager : Optional[PreviewWorkerManager]` is module state;
manager instances are identified by a `Nat`.  `PreviewWorkerManager`
itself (`preview_workers.py`) is not under src/, so only its identity
matters here; the one behaviour this file needs from it —
`shutdown_all(wait=False)` does not block — is modelled from the
spec. -/

/-- Model of `_get_preview_manager` (lines 607-612): on `None` state construct
and store a fresh manager (`fresh` is the instance the constructor
would produce), otherwise return the stored one.  Result: (returned
manager, new module state). -/
def getPreviewManagerM : Option Nat → Nat → Nat × Option Nat
  | none, fresh => (fresh, some fresh)
  | some m, _ => (m, some m)

/-- A sequence of `_get_preview_manager` calls (no intervening
shutdown), threading the module state; `freshes` supplies the instance
each call would construct if it constructed one. -/
def managerCalls : Option Nat → List Nat → List Nat
  | _, [] => []
  | st, f :: rest =>
    (getPreviewManagerM st f).1 :: managerCalls (getPreviewManagerM st f).2 rest

/-- Calls observable on a `PreviewWorkerManager`. -/
inductive MgrEvent where
  | shutdownAll (mgr : Nat) (wait : Bool) (timeout : Option ℚ)
deriving DecidableEq

/-- Model of `shutdown_preview_workers` (lines 615-626): no-op on `None` state;
otherwise `shutdown_all(wait, timeout)` on the stored manager and the
global is cleared.  Result: (new module state, manager calls made). -/
def shutdown_preview_workersM (st : Option Nat) (wait : Bool) (timeout : Option ℚ) :
    Option Nat × List MgrEvent :=
  match st with
  | none => (none, [])
  | some m => (none, [.shutdownAll m wait timeout])

/-- Model of `PreviewContext` (lines 176-269): the only state its `__exit__`
reads is `self._manager`. -/
structure PreviewCtx where
  manager : Option Nat
deriving DecidableEq

/-- Model of `PreviewContext.__exit__` (lines 185-190): when a manager was
bound, call `shutdown_all(wait=False, timeout=3.0)`, catching (and
logging) any exception it raises.  Result: (manager calls made, log
lines). -/
def previewContextExit (ctx : PreviewCtx) (shutdownRaises : Bool) :
    List MgrEvent × List String :=
  match ctx.manager with
  | none => ([], [])
  | some m =>
    ([.shutdownAll m false (some 3)],
     if shutdownRaises then ["Failed to cleanup preview context"] else [])

/-- How a `with create_preview_context() as ctx: ...` body ends. -/
inductive ExitPath where
  | normal
  | error (e : String)
  | interrupt
deriving DecidableEq

/-- Python `with`-statement semantics for `PreviewContext`: the body
runs, and `__exit__` runs exactly once afterwards on every exit path
(normal return, exception, `KeyboardInterrupt`); since `__exit__`
returns `None`, an exceptional path continues to propagate after it.
Result: (all manager calls of the block, the propagated outcome). -/
def runWithPreviewContext (ctx : PreviewCtx) (bodyEvents : List MgrEvent)
    (path : ExitPath) (shutdownRaises : Bool) : List MgrEvent × ExitPath :=
  (bodyEvents ++ (previewContextExit ctx shutdownRaises).1, path)

/-- Number of `shutdown_all` calls in an event list. -/
def shutdownCount (evs : List MgrEvent) : Nat :=
  (evs.filter (fun e => match e with | .shutdownAll _ _ _ => true)).length

/-- Modelled from the spec: `PreviewWorkerManager.shutdown_all`
(`preview_workers.py`, absent from src/) blocks on in-flight work only
when `wait` is true — spec §4.4/§4.6: with `wait=false` the request
is "a non-blocking best-effort signal". -/
def shutdownAllBlocks (wait : Bool) : Bool := wait

/-! ## The external fzf preview renderer (assets/scripts/fzf/preview.py)

The renderer is an independently invoked process.  Its template
variables and the fzf-selected title are the inputs; the images/info
caches are modelled as the list of existing file paths.  Terminal
rendering (`fzf_image_preview`, the cached info subprocess) is
represented by fixed output tokens, since it writes to the terminal
and never feeds back into control flow. -/

/-- The renderer's inputs: injected template values plus `sys.argv[1]`. -/
structure RenderCfg where
  previewMode : String
  pfx : String
  key : String
  title : String
  imageCacheDir : String
  infoCacheDir : String
  headerColor : String
  sepColor : String
deriving DecidableEq

/-- The renderer's `hash_id` (line 32), built from the same
`fzfHashId` derivation. -/
def renderHashId (cfg : RenderCfg) : String :=
  String.mk (fzfHashId cfg.pfx.data cfg.key.data cfg.title.data)

/-- Model of `IMAGE_CACHE_DIR / f"{hash_id}.png"` (line 271). -/
def fzfImagePath (cfg : RenderCfg) : String :=
  cfg.imageCacheDir ++ "/" ++ renderHashId cfg ++ ".png"

/-- Model of `INFO_CACHE_DIR / f"{hash_id}.py"` (line 256). -/
def fzfInfoPath (cfg : RenderCfg) : String :=
  cfg.infoCacheDir ++ "/" ++ renderHashId cfg ++ ".py"

/-- Model of `s.split(",")` on the character list of a string. -/
def splitCommaGo : List Char → List Char → List (List Char)
  | [], acc => [acc.reverse]
  | c :: rest, acc =>
    if c = ',' then acc.reverse :: splitCommaGo rest []
    else splitCommaGo rest (c :: acc)

/-- Model of `int(s)` restricted to the plain decimal numerals the templates
inject: `none` on an empty string or a non-digit character
(`ValueError`). -/
def pyInt? (s : List Char) : Option Nat :=
  if s.isEmpty then none
  else s.foldl (fun acc c =>
    match acc with
    | none => none
    | some n => if c.isDigit then some (n * 10 + (c.toNat - 48)) else none) (some 0)

/-- Model of `r, g, b = map(int, s.split(","))` (line 251): `some` on a
three-component list of decimal integers, otherwise the `ValueError` /
unpacking error case. -/
def parseRGB (s : String) : Option (Nat × Nat × Nat) :=
  match splitCommaGo s.data [] with
  | [r, g, b] =>
    match pyInt? r, pyInt? g, pyInt? b with
    | some rv, some gv, some bv => some (rv, gv, bv)
    | _, _, _ => none
  | _ => none

/-- The image half of `main` (lines 267-276): in `image`/`full` mode
and for a prefix outside `("character", "review", "airing-schedule")`,
render the cached image when present, else print the loading
placeholder. -/
def fzfMainImage (cfg : RenderCfg) (existing : List String) : List String :=
  if (cfg.previewMode = "image" ∨ cfg.previewMode = "full") ∧
      ¬ (cfg.pfx = "character" ∨ cfg.pfx = "review" ∨ cfg.pfx = "airing-schedule") then
    if fzfImagePath cfg ∈ existing then ["<rendered image>", ""]
    else ["🖼️  Loading image..."]
  else []

/-- Model of `fzf_text_info_render` (lines 245-263): parse the separator color
(raising `ValueError` on bad input), print the separator, then in
`text`/`full` mode run the cached info script when present, else print
the details placeholder. -/
def fzfTextInfo (cfg : RenderCfg) (existing : List String) :
    Except String (List String) :=
  match parseRGB cfg.sepColor with
  | none => .error ("invalid literal for separator color: " ++ cfg.sepColor)
  | some _ =>
    if cfg.previewMode = "text" ∨ cfg.previewMode = "full" then
      if fzfInfoPath cfg ∈ existing then .ok ["<separator>", "<info script output>"]
      else .ok ["<separator>", "\x1b[2m📝 Loading details...\x1b[0m"]
    else .ok ["<separator>"]

/-- Model of `main` (lines 266-279): image section then text section; an
exception escaping either section escapes `main`. -/
def fzfMain (cfg : RenderCfg) (existing : List String) :
    Except String (List String) :=
  match fzfTextInfo cfg existing with
  | .error e => .error e
  | .ok textOut => .ok (fzfMainImage cfg existing ++ textOut)

/-- An exception reaching the renderer's `__main__` guard. -/
inductive PyExc where
  | keyboardInterrupt
  | exc (msg : String)
deriving DecidableEq

/-- The `__main__` guard (lines 282-288): `KeyboardInterrupt` is
suppressed silently, any other exception is printed as
`Preview Error: ...`; nothing is re-raised.  Result: (printed output,
exception propagated out of the process — if any). -/
def mainGuard (r : Except PyExc (List String)) : List String × Option PyExc :=
  match r with
  | .ok out => (out, none)
  | .error .keyboardInterrupt => ([], none)
  | .error (.exc e) => (["Preview Error: " ++ e], none)

/-- One full renderer run: `main()` under the guard; `interrupted`
models a `KeyboardInterrupt` delivered during `main`. -/
def fzfScript (cfg : RenderCfg) (existing : List String) (interrupted : Bool) :
    List String × Option PyExc :=
  mainGuard (if interrupted then .error .keyboardInterrupt
    else match fzfMain cfg existing with
      | .ok out => .ok out
      | .error e => .error (.exc e))

/-! ### Digest-length facts -/

theorem compressRound_length (r : List Nat) (kt wt : Nat) (h : r.length = 8) :
    (compressRound r kt wt).length = 8 := by
  rcases r with _ | ⟨a, r⟩
  · simp at h
  rcases r with _ | ⟨b, r⟩
  · simp at h
  rcases r with _ | ⟨c, r⟩
  · simp at h
  rcases r with _ | ⟨d, r⟩
  · simp at h
  rcases r with _ | ⟨e, r⟩
  · simp at h
  rcases r with _ | ⟨f2, r⟩
  · simp at h
  rcases r with _ | ⟨g, r⟩
  · simp at h
  rcases r with _ | ⟨h8, r⟩
  · simp at h
  rcases r with _ | ⟨x, r⟩
  · rfl
  · simp only [List.length_cons, List.length_nil] at h
    omega

theorem foldl_compressRound_length (l : List (Nat × Nat)) :
    ∀ r : List Nat, r.length = 8 →
      (l.foldl (fun r kw => compressRound r kw.1 kw.2) r).length = 8 := by
  induction l with
  | nil => intro r h; simpa using h
  | cons kw l ih => intro r h; exact ih _ (compressRound_length r kw.1 kw.2 h)

theorem compressBlock_length (hs block : Bytes) (h : hs.length = 8) :
    (compressBlock hs block).length = 8 := by
  unfold compressBlock
  rw [List.length_zipWith, foldl_compressRound_length _ hs h, h]
  exact Nat.min_self 8

theorem foldl_compressBlock_length (bs : List Bytes) :
    ∀ hs : Bytes, hs.length = 8 → (bs.foldl compressBlock hs).length = 8 := by
  induction bs with
  | nil => intro hs h; simpa using h
  | cons b bs ih => intro hs h; exact ih _ (compressBlock_length hs b h)

theorem sha256Words_length (m : Bytes) : (sha256Words m).length = 8 :=
  foldl_compressBlock_length _ shaH0 rfl

theorem foldr_be32_length (ws : List Nat) :
    (ws.foldr (fun wd acc => be32 wd ++ acc) ([] : Bytes)).length = 4 * ws.length := by
  induction ws with
  | nil => rfl
  | cons w ws ih =>
    rw [List.foldr_cons, List.length_append, ih, List.length_cons]
    show 4 + 4 * ws.length = 4 * (ws.length + 1)
    omega

theorem sha256_length (m : Bytes) : (sha256 m).length = 32 := by
  unfold sha256
  rw [foldr_be32_length, sha256Words_length]

theorem hexOfBytes_length (bs : Bytes) : (hexOfBytes bs).length = 2 * bs.length := by
  induction bs with
  | nil => rfl
  | cons b bs ih =>
    simp only [hexOfBytes, List.foldr_cons, List.length_cons] at ih ⊢
    omega

theorem sha256hex_length (m : Bytes) : (sha256hex m).length = 64 := by
  unfold sha256hex
  rw [hexOfBytes_length, sha256_length]

/-- Two initial elements of an append are those of the left part, when
the left part has at least two elements. -/
theorem take_two_append (l₁ l₂ : List Char) (h : 2 ≤ l₁.length) :
    (l₁ ++ l₂).take 2 = l₁.take 2 := by
  rw [List.take_append_eq_append_take, Nat.sub_eq_zero_of_le h, List.take_zero,
    List.append_nil]

/-- The first two characters of an fzf cache key are those of its
category prefix. -/
theorem fzfHashId_take_two (c k t : PyStr) (hc : 1 ≤ c.length) :
    (fzfHashId c k t).take 2 = (c ++ pystr "-").take 2 := by
  unfold fzfHashId
  refine take_two_append _ _ ?_
  have h1 : (pystr "-").length = 1 := rfl
  rw [List.length_append, h1]
  omega

/-- Claim C2, counterexample. The claim says the cache key is obtained by
hashing a string that contains the category prefix ("fed into the
derivation, not attached or filtered after hashing"), so the whole key
would be one hex digest. In the code (fzf preview.py, line 32) the key
is `PREFIX ++ "-" ++ hexdigest`: it is 70 characters long where a bare
digest has 64, and the portion after the prefix is byte-for-byte
identical across two different categories with the same identity —
the category never enters the hash input. -/
theorem claim_C2_counterexample :
    fzfHashId (pystr "anime") (pystr "") (pystr "X") ≠
      specDerive (pystr "anime") [pystr "X"] (pystr "|") ∧
    List.drop 6 (fzfHashId (pystr "anime") (pystr "") (pystr "X")) =
      List.drop 8 (fzfHashId (pystr "episode") (pystr "") (pystr "X")) := by
  constructor
  · intro hEq
    have hlen := congrArg List.length hEq
    have h1 : (fzfHashId (pystr "anime") (pystr "") (pystr "X")).length = 70 := by
      unfold fzfHashId
      rw [List.length_append, sha256hex_length]
      decide
    have h2 : (specDerive (pystr "anime") [pystr "X"] (pystr "|")).length = 64 :=
      sha256hex_length _
    rw [h1, h2] at hlen
    exact absurd hlen (by decide)
  · unfold fzfHashId
    rw [@List.drop_left' Char (pystr "anime" ++ pystr "-") _ 6 (by decide),
      @List.drop_left' Char (pystr "episode" ++ pystr "-") _ 8 (by decide)]

/-- Claim C2, amended. The cache key of the fzf renderer is the category
prefix, a `"-"` separator, and the SHA-256 hex digest of the identity
parts (`KEY + TITLE`): the key starts with the category prefix verbatim,
and the hashed portion after the prefix is independent of the
category — the prefix is attached outside the hash, and the
category-namespace separation comes only from that attached prefix. -/
theorem claim_C2_amended (c₁ c₂ rawKey title : PyStr) :
    List.take c₁.length (fzfHashId c₁ rawKey title) = c₁ ∧
    List.drop (c₁.length + 1) (fzfHashId c₁ rawKey title) =
      List.drop (c₂.length + 1) (fzfHashId c₂ rawKey title) := by
  have hdash : ∀ c : PyStr, (c ++ pystr "-").length = c.length + 1 := by
    intro c; rw [List.length_append]; rfl
  constructor
  · unfold fzfHashId
    rw [List.append_assoc, List.take_left]
  · unfold fzfHashId
    rw [List.drop_left' (hdash c₁), List.drop_left' (hdash c₂)]

/-- Claim C3, counterexample. Key derivation is not injective across its
input space, and not merely up to hash collisions: within the episode
category the separator `"_Episode_"` is ambiguous, so the two distinct
identity tuples `("A_Episode_1", "2")` and `("A", "1_Episode_2")` hash
the very same message and collide exactly; and across categories, the
anime key of the title `"X_Episode_1"` equals the episode key of
`("X", "1")`, because `_get_image` hashes the bare title with no
category prefix in the hash input. -/
theorem claim_C3_counterexample :
    rofiEpisodeKey (pystr "A_Episode_1") (pystr "2") =
      rofiEpisodeKey (pystr "A") (pystr "1_Episode_2") ∧
    (pystr "A_Episode_1", pystr "2") ≠ (pystr "A", pystr "1_Episode_2") ∧
    rofiAnimeKey (pystr "X_Episode_1") = rofiEpisodeKey (pystr "X") (pystr "1") := by
  refine ⟨?_, by decide, ?_⟩
  · unfold rofiEpisodeKey
    exact congrArg (fun s => sha256hex (utf8 s)) (by decide)
  · unfold rofiAnimeKey rofiEpisodeKey
    exact congrArg (fun s => sha256hex (utf8 s)) (by decide)

/-- Claim C3, amended. Key derivation is deterministic (each scheme is a
pure function of the identity). Identical identity parts under two
different categories map to different keys in the fzf `hash_id` scheme,
because the distinct category prefixes are attached to the digest — for
every pair of distinct categories actually used by the repository and
any identities whatsoever, the keys differ. Within the rofi episode
scheme, distinct identity tuples can collide exactly: any two tuples
whose `"_Episode_"`-joined messages coincide share a key. -/
theorem claim_C3_amended :
    (∀ c₁ c₂ : PyStr, c₁ ∈ usedCategories → c₂ ∈ usedCategories → c₁ ≠ c₂ →
      ∀ k₁ t₁ k₂ t₂ : PyStr, fzfHashId c₁ k₁ t₁ ≠ fzfHashId c₂ k₂ t₂) ∧
    (∀ t₁ e₁ t₂ e₂ : PyStr,
      t₁ ++ pystr "_Episode_" ++ e₁ = t₂ ++ pystr "_Episode_" ++ e₂ →
      rofiEpisodeKey t₁ e₁ = rofiEpisodeKey t₂ e₂) := by
  constructor
  · intro c₁ c₂ h₁ h₂ hne k₁ t₁ k₂ t₂ hEq
    have h2 := congrArg (List.take 2) hEq
    simp only [usedCategories, List.mem_cons, List.not_mem_nil, or_false] at h₁ h₂
    rcases h₁ with rfl | rfl | rfl | rfl | rfl | rfl <;>
      rcases h₂ with rfl | rfl | rfl | rfl | rfl | rfl <;>
      first
        | exact hne rfl
        | (rw [fzfHashId_take_two _ _ _ (by decide),
             fzfHashId_take_two _ _ _ (by decide)] at h2;
           exact absurd h2 (by decide))
  · intro t₁ e₁ t₂ e₂ hEq
    unfold rofiEpisodeKey
    exact congrArg (fun s => sha256hex (utf8 s)) hEq

/-- Witness for the amended C3: instantiated at the `episode` / `anime`
category pair with identity `"X"`, and at the concrete colliding
episode tuples. -/
theorem claim_C3_amended_witness :
    fzfHashId (pystr "episode") (pystr "") (pystr "X") ≠
      fzfHashId (pystr "anime") (pystr "") (pystr "X") ∧
    rofiEpisodeKey (pystr "A_Episode_1") (pystr "2") =
      rofiEpisodeKey (pystr "A") (pystr "1_Episode_2") :=
  ⟨claim_C3_amended.1 _ _ (by decide) (by decide) (by decide) _ _ _ _,
   claim_C3_amended.2 _ _ _ _ (by decide)⟩

theorem fsLookup_set_self (p : FileName) (b : Bytes) (fs : FS) :
    fsLookup p (fsSet p b fs) = some b := by
  simp [fsSet, fsLookup]

theorem fsLookup_remove_ne {q p : FileName} (h : q ≠ p) (fs : FS) :
    fsLookup p (fsRemove q fs) = fsLookup p fs := by
  induction fs with
  | nil => rfl
  | cons e rest ih =>
    rcases e with ⟨e1, b⟩
    by_cases he : e1 = q
    · subst he
      simp [fsRemove, fsLookup, ih, h]
    · simp [fsRemove, fsLookup, he, ih]

theorem fsLookup_set_ne {q p : FileName} (h : q ≠ p) (b : Bytes) (fs : FS) :
    fsLookup p (fsSet q b fs) = fsLookup p fs := by
  simp only [fsSet, fsLookup, if_neg h]
  exact fsLookup_remove_ne h fs

theorem fsRemove_eq_of_lookup_none {p : FileName} {fs : FS}
    (h : fsLookup p fs = none) : fsRemove p fs = fs := by
  induction fs with
  | nil => rfl
  | cons e rest ih =>
    rcases e with ⟨q, b⟩
    by_cases hq : q = p
    · simp [fsLookup, hq] at h
    · simp only [fsLookup, if_neg hq] at h
      simp [fsRemove, hq, ih h]

theorem fsRemove_idem (p : FileName) (fs : FS) :
    fsRemove p (fsRemove p fs) = fsRemove p fs := by
  induction fs with
  | nil => rfl
  | cons e rest ih =>
    rcases e with ⟨q, b⟩
    by_cases hq : q = p
    · simp [fsRemove, hq, ih]
    · simp [fsRemove, hq, ih]

/-- The temporary path never coincides with the final path. -/
theorem tmpName_ne (p : FileName) : tmpName p ≠ p := by
  intro h
  have hl := congrArg List.length h
  have h4 : (pystr ".tmp").length = 4 := rfl
  rw [tmpName, List.length_append, h4] at hl
  omega

/-- Claim C1, counterexample. The dynamic-search preview renderer's own
image download writes the downloaded bytes directly at the final cache
path — its trace is a single in-place write with no temporary file and
no rename — so a concurrent observer of the final path can see the
truncated content `[7]` of the full download `[7, 8]`: neither "no
file" nor "a complete, fully-written file". -/
theorem claim_C1_counterexample :
    download_image_ops (pystr "img.png") [7, 8] true =
      [FsOp.write (pystr "img.png") [7, 8]] ∧
    some [7] ∈ observations [] (download_image_ops (pystr "img.png") [7, 8] true)
      (pystr "img.png") ∧
    (some [7] : Option Bytes) ≠ some [7, 8] ∧ (some [7] : Option Bytes) ≠ none := by
  exact ⟨rfl, by decide, by decide, by decide⟩

/-- Claim C1, amended. Writers that go through `AtomicWriter`
(`_get_image`, `_get_episode_image`; the worker-side writers per the
spec) first write to a temporary file in the same directory and then
atomically rename, so an observer of the final path sees either no
file, or — only on success — the complete written bytes, never a
truncated file.  The dynamic-search renderer's `download_image` is the
exception established by the counterexample: it writes the downloaded
bytes directly to the final path. -/
theorem claim_C1_amended (fs : FS) (finalPath : FileName) (written : Bytes)
    (failed : Bool) (hnone : fsLookup finalPath fs = none) :
    ∀ o ∈ observations fs (atomicWriterOps finalPath written failed) finalPath,
      o = none ∨ (failed = false ∧ o = some written) := by
  intro o ho
  have htmp := tmpName_ne finalPath
  cases failed with
  | true =>
    simp only [atomicWriterOps, if_pos, observations, statesDuring, midStates,
      prefixesOf, applyOp, List.map_cons, List.map_append, List.map_map,
      List.mem_cons, List.mem_append, List.mem_map, List.mem_range,
      List.map_nil, List.nil_append, List.not_mem_nil, or_false,
      Function.comp] at ho
    rcases ho with rfl | ⟨n, _, rfl⟩ | rfl | rfl
    · exact Or.inl hnone
    · exact Or.inl ((fsLookup_set_ne htmp _ fs).trans hnone)
    · exact Or.inl ((fsLookup_set_ne htmp _ fs).trans hnone)
    · refine Or.inl ?_
      rw [fsLookup_remove_ne htmp, fsLookup_set_ne htmp, hnone]
  | false =>
    simp only [atomicWriterOps, if_neg, observations, statesDuring, midStates,
      prefixesOf, applyOp, List.map_cons, List.map_append, List.map_map,
      List.mem_cons, List.mem_append, List.mem_map, List.mem_range,
      List.map_nil, List.nil_append, List.not_mem_nil, or_false,
      Function.comp, Bool.false_eq_true] at ho
    rcases ho with rfl | ⟨n, _, rfl⟩ | rfl | rfl
    · exact Or.inl hnone
    · exact Or.inl ((fsLookup_set_ne htmp _ fs).trans hnone)
    · exact Or.inl ((fsLookup_set_ne htmp _ fs).trans hnone)
    · refine Or.inr ⟨rfl, ?_⟩
      rw [fsLookup_set_self]
      exact fsLookup_set_self _ _ _

/-- Witness for the amended C1: a successful atomic write of `[7, 8]`
into an empty filesystem, observed at the complete final contents. -/
theorem claim_C1_amended_witness :
    (some [7, 8] : Option Bytes) = none ∨
      (false = false ∧ (some [7, 8] : Option Bytes) = some [7, 8]) :=
  claim_C1_amended [] (pystr "a.png") [7, 8] false rfl (some [7, 8]) (by decide)

/-- A failed `AtomicWriter` context leaves the filesystem unchanged
when its temporary path was not previously present. -/
theorem atomic_fail_fs (p : FileName) (w : Bytes) (fs : FS)
    (h : fsLookup (tmpName p) fs = none) :
    applyOps fs (atomicWriterOps p w true) = fs := by
  show fsRemove (tmpName p) (fsSet (tmpName p) w fs) = fs
  rw [fsSet, fsRemove_eq_of_lookup_none h]
  show fsRemove (tmpName p) ((tmpName p, w) :: fs) = fs
  rw [fsRemove, if_pos rfl, fsRemove_eq_of_lookup_none h]

/-- A successful `AtomicWriter` context leaves the written bytes at the
final path. -/
theorem atomic_ok_lookup (p : FileName) (w : Bytes) (fs : FS) :
    fsLookup p (applyOps fs (atomicWriterOps p w false)) = some w := by
  simp only [atomicWriterOps, if_neg, applyOps, List.foldl, applyOp, fsLookup_set_self]

/-- A failing fetch inside the common tail of `_get_episode_image`
(the try/except of lines 106-117, reached with whichever `image_url`
the routing selected) logs the error, writes no artifact, and leaves
the filesystem exactly as it was. -/
theorem episodeImageBody_fail (dir : FileName) (fetch : PyStr → FetchResult)
    (episode : PyStr) (item : MediaItem) (url : PyStr) (fs : FS)
    (written : Bytes) (msg : PyStr)
    (habsent : fsLookup (imageArtifactPath dir
      (rofiEpisodeKey item.title.english episode)) fs = none)
    (hfail : fetch url = .fail written msg)
    (htmp : fsLookup (tmpName (imageArtifactPath dir
      (rofiEpisodeKey item.title.english episode))) fs = none) :
    episodeImageBody dir fetch episode item url fs =
      (pystr "", fs,
       [.fetch url,
        .logError (pystr "Failed to download image " ++ url ++ pystr " for " ++
          item.title.english ++ pystr ": " ++ msg)]) := by
  have hred : episodeImageBody dir fetch episode item url fs =
      (pystr "", applyOps fs (atomicWriterOps (imageArtifactPath dir
        (rofiEpisodeKey item.title.english episode)) written true),
       [.fetch url,
        .logError (pystr "Failed to download image " ++ url ++ pystr " for " ++
          item.title.english ++ pystr ": " ++ msg)]) := by
    simp only [episodeImageBody, habsent, Option.isSome_none, Bool.false_eq_true,
      if_false, hfail]
  rw [hred, atomic_fail_fs _ _ _ htmp]

/-- URL routing of `_get_episode_image`, streaming branch (lines
88-90): a non-empty `streaming_episodes` dict that has the episode,
with a non-falsy thumbnail, sends the thumbnail URL into the common
tail. -/
theorem getEpisodeImage_streaming (dir : FileName) (fetch : PyStr → FetchResult)
    (episode : PyStr) (item : MediaItem) (stream : StreamingEpisode) (url : PyStr)
    (fs : FS)
    (hne : ¬ item.streaming_episodes.isEmpty)
    (hstream : pyGet episode item.streaming_episodes = some stream)
    (hthumb : stream.thumbnail = some url)
    (hurl : ¬ url.isEmpty) :
    getEpisodeImage dir fetch episode item fs =
      episodeImageBody dir fetch episode item url fs := by
  simp only [getEpisodeImage, if_neg hne, hstream, hthumb]
  rw [if_neg hurl]

/-- URL routing of `_get_episode_image`, cover branch (lines 91-94):
when the streaming dict is empty or lacks the episode, a present cover
image with a non-falsy URL sends `cover_image.large` into the common
tail. -/
theorem getEpisodeImage_cover (dir : FileName) (fetch : PyStr → FetchResult)
    (episode : PyStr) (item : MediaItem) (cover : MediaImage) (fs : FS)
    (hmiss : item.streaming_episodes.isEmpty = true ∨
      pyGet episode item.streaming_episodes = none)
    (hcover : item.cover_image = some cover)
    (hurl : ¬ cover.large.isEmpty) :
    getEpisodeImage dir fetch episode item fs =
      episodeImageBody dir fetch episode item cover.large fs := by
  rcases hmiss with h | h
  · simp only [getEpisodeImage, h, if_true, hcover]
    rw [if_neg hurl]
  · by_cases hie : item.streaming_episodes.isEmpty
    · simp only [getEpisodeImage, hie, if_true, hcover]
      rw [if_neg hurl]
    · simp only [getEpisodeImage, if_neg hie, h, hcover]
      rw [if_neg hurl]

/-- Claim C5, confirmed.  When the image fetch for an item fails
(connection error, non-success HTTP status via `raise_for_status`, or
any mid-stream exception — all folded into `FetchResult.fail`), the
error is logged, no artifact is left at the key's final image path
(indeed the filesystem is exactly as it was), the empty string is
returned, and the rest of the batch proceeds exactly as it would have
from the untouched filesystem.  This holds for `_get_image` with its
media-item batch, and for `_get_episode_image` with its episode batch
on both of its URL routes: the streaming-thumbnail route and the
cover-image route. -/
theorem claim_C5 :
    (∀ (dir : FileName) (fetch : PyStr → FetchResult) (item : MediaItem)
      (cover : MediaImage) (fs : FS) (written : Bytes) (msg : PyStr)
      (rest : List MediaItem),
      item.cover_image = some cover →
      fsLookup (imageArtifactPath dir (rofiAnimeKey item.title.english)) fs = none →
      ¬ cover.large.isEmpty →
      fetch cover.large = .fail written msg →
      fsLookup (tmpName (imageArtifactPath dir (rofiAnimeKey item.title.english))) fs
        = none →
      (getImage dir fetch item fs).1 = pystr "" ∧
      (getImage dir fetch item fs).2.1 = fs ∧
      fsLookup (imageArtifactPath dir (rofiAnimeKey item.title.english))
        (getImage dir fetch item fs).2.1 = none ∧
      NetEv.logError (pystr "Failed to download image " ++ cover.large ++
        pystr ": " ++ msg) ∈ (getImage dir fetch item fs).2.2 ∧
      runBatch dir fetch rest ((getImage dir fetch item fs).2.1) =
        runBatch dir fetch rest fs) ∧
    (∀ (dir : FileName) (fetch : PyStr → FetchResult) (episode : PyStr)
      (item : MediaItem) (stream : StreamingEpisode) (url : PyStr) (fs : FS)
      (written : Bytes) (msg : PyStr) (rest : List PyStr),
      ¬ item.streaming_episodes.isEmpty →
      pyGet episode item.streaming_episodes = some stream →
      stream.thumbnail = some url →
      ¬ url.isEmpty →
      fsLookup (imageArtifactPath dir (rofiEpisodeKey item.title.english episode)) fs
        = none →
      fetch url = .fail written msg →
      fsLookup (tmpName (imageArtifactPath dir
        (rofiEpisodeKey item.title.english episode))) fs = none →
      (getEpisodeImage dir fetch episode item fs).1 = pystr "" ∧
      (getEpisodeImage dir fetch episode item fs).2.1 = fs ∧
      fsLookup (imageArtifactPath dir (rofiEpisodeKey item.title.english episode))
        (getEpisodeImage dir fetch episode item fs).2.1 = none ∧
      NetEv.logError (pystr "Failed to download image " ++ url ++ pystr " for " ++
        item.title.english ++ pystr ": " ++ msg)
        ∈ (getEpisodeImage dir fetch episode item fs).2.2 ∧
      runEpisodeBatch dir fetch rest item
          ((getEpisodeImage dir fetch episode item fs).2.1) =
        runEpisodeBatch dir fetch rest item fs) ∧
    (∀ (dir : FileName) (fetch : PyStr → FetchResult) (episode : PyStr)
      (item : MediaItem) (cover : MediaImage) (fs : FS)
      (written : Bytes) (msg : PyStr) (rest : List PyStr),
      (item.streaming_episodes.isEmpty = true ∨
        pyGet episode item.streaming_episodes = none) →
      item.cover_image = some cover →
      ¬ cover.large.isEmpty →
      fsLookup (imageArtifactPath dir (rofiEpisodeKey item.title.english episode)) fs
        = none →
      fetch cover.large = .fail written msg →
      fsLookup (tmpName (imageArtifactPath dir
        (rofiEpisodeKey item.title.english episode))) fs = none →
      (getEpisodeImage dir fetch episode item fs).1 = pystr "" ∧
      (getEpisodeImage dir fetch episode item fs).2.1 = fs ∧
      fsLookup (imageArtifactPath dir (rofiEpisodeKey item.title.english episode))
        (getEpisodeImage dir fetch episode item fs).2.1 = none ∧
      NetEv.logError (pystr "Failed to download image " ++ cover.large ++
        pystr " for " ++ item.title.english ++ pystr ": " ++ msg)
        ∈ (getEpisodeImage dir fetch episode item fs).2.2 ∧
      runEpisodeBatch dir fetch rest item
          ((getEpisodeImage dir fetch episode item fs).2.1) =
        runEpisodeBatch dir fetch rest item fs) := by
  refine ⟨?_, ?_, ?_⟩
  · intro dir fetch item cover fs written msg rest hcover habsent hurl hfail htmp
    have hred : getImage dir fetch item fs =
        (pystr "", applyOps fs (atomicWriterOps
          (imageArtifactPath dir (rofiAnimeKey item.title.english)) written true),
         [.fetch cover.large,
          .logError (pystr "Failed to download image " ++ cover.large ++
            pystr ": " ++ msg)]) := by
      simp only [getImage, hcover, habsent, Option.isSome_none, Bool.false_eq_true,
        if_false, hfail]
      rw [if_neg hurl]
    have hfs : (getImage dir fetch item fs).2.1 = fs := by
      rw [hred]
      exact atomic_fail_fs _ _ _ htmp
    exact ⟨by rw [hred], hfs, by rw [hfs]; exact habsent, by rw [hred]; simp,
      by rw [hfs]⟩
  · intro dir fetch episode item stream url fs written msg rest
      hne hstream hthumb hurl habsent hfail htmp
    have hroute := getEpisodeImage_streaming dir fetch episode item stream url fs
      hne hstream hthumb hurl
    have hred := episodeImageBody_fail dir fetch episode item url fs written msg
      habsent hfail htmp
    rw [hroute, hred]
    exact ⟨rfl, rfl, habsent, by simp, rfl⟩
  · intro dir fetch episode item cover fs written msg rest
      hmiss hcover hurl habsent hfail htmp
    have hroute := getEpisodeImage_cover dir fetch episode item cover fs
      hmiss hcover hurl
    have hred := episodeImageBody_fail dir fetch episode item cover.large fs written
      msg habsent hfail htmp
    rw [hroute, hred]
    exact ⟨rfl, rfl, habsent, by simp, rfl⟩

/-- Witness for C5: concrete failing fetches — an anime item, an
episode resolved through a streaming thumbnail, and an episode
resolved through the cover image — each return `""` and leave the
empty filesystem empty. -/
theorem claim_C5_witness :
    (getImage (pystr "img") (fun _ => FetchResult.fail [] (pystr "boom"))
      ⟨⟨pystr "T"⟩, some ⟨pystr "u"⟩, []⟩ []).1 = pystr "" ∧
    (getImage (pystr "img") (fun _ => FetchResult.fail [] (pystr "boom"))
      ⟨⟨pystr "T"⟩, some ⟨pystr "u"⟩, []⟩ []).2.1 = [] ∧
    (getEpisodeImage (pystr "img") (fun _ => FetchResult.fail [] (pystr "boom"))
      (pystr "1") ⟨⟨pystr "T"⟩, none, [(pystr "1", ⟨some (pystr "u")⟩)]⟩ []).1 =
      pystr "" ∧
    (getEpisodeImage (pystr "img") (fun _ => FetchResult.fail [] (pystr "boom"))
      (pystr "1") ⟨⟨pystr "T"⟩, none, [(pystr "1", ⟨some (pystr "u")⟩)]⟩ []).2.1 = [] ∧
    (getEpisodeImage (pystr "img") (fun _ => FetchResult.fail [] (pystr "boom"))
      (pystr "1") ⟨⟨pystr "T"⟩, some ⟨pystr "u"⟩, []⟩ []).1 = pystr "" ∧
    (getEpisodeImage (pystr "img") (fun _ => FetchResult.fail [] (pystr "boom"))
      (pystr "1") ⟨⟨pystr "T"⟩, some ⟨pystr "u"⟩, []⟩ []).2.1 = [] :=
  have hA := claim_C5.1 (pystr "img") (fun _ => FetchResult.fail [] (pystr "boom"))
    ⟨⟨pystr "T"⟩, some ⟨pystr "u"⟩, []⟩ ⟨pystr "u"⟩ [] [] (pystr "boom") []
    rfl rfl (by decide) rfl rfl
  have hB := claim_C5.2.1 (pystr "img") (fun _ => FetchResult.fail [] (pystr "boom"))
    (pystr "1") ⟨⟨pystr "T"⟩, none, [(pystr "1", ⟨some (pystr "u")⟩)]⟩
    ⟨some (pystr "u")⟩ (pystr "u") [] [] (pystr "boom") []
    (by decide) (by decide) rfl (by decide) rfl rfl rfl
  have hC := claim_C5.2.2 (pystr "img") (fun _ => FetchResult.fail [] (pystr "boom"))
    (pystr "1") ⟨⟨pystr "T"⟩, some ⟨pystr "u"⟩, []⟩ ⟨pystr "u"⟩ [] [] (pystr "boom") []
    (Or.inl rfl) rfl (by decide) rfl rfl rfl
  ⟨hA.1, hA.2.1, hB.1, hB.2.1, hC.1, hC.2.1⟩

/-- Claim C6, counterexample.  Idempotence as stated fails for an item
without a cover image: the artifact for the item's derived key is
present on disk, yet `_get_image` returns `""` (its very first check
is `if not item.cover_image: return ""`) instead of "that path" — it
does perform no fetch and no write, but does not return the path. -/
theorem claim_C6_counterexample :
    getImage (pystr "img") (fun _ => FetchResult.ok [[1]])
      ⟨⟨pystr "T"⟩, none, []⟩
      [(imageArtifactPath (pystr "img") (rofiAnimeKey (pystr "T")), [9])] =
      (pystr "",
       [(imageArtifactPath (pystr "img") (rofiAnimeKey (pystr "T")), [9])], []) ∧
    fsLookup (imageArtifactPath (pystr "img") (rofiAnimeKey (pystr "T")))
      [(imageArtifactPath (pystr "img") (rofiAnimeKey (pystr "T")), [9])] = some [9] ∧
    pystr "" ≠ imageArtifactPath (pystr "img") (rofiAnimeKey (pystr "T")) := by
  refine ⟨rfl, by simp [fsLookup], ?_⟩
  intro h
  have hl := congrArg List.length h
  have e1 : (pystr "").length = 0 := rfl
  have e2 : (pystr "img").length = 3 := rfl
  have e3 : (pystr "/").length = 1 := rfl
  have e4 : (pystr ".png").length = 4 := rfl
  rw [imageArtifactPath, e1, List.length_append, List.length_append,
    List.length_append, e2, e3, e4, rofiAnimeKey, sha256hex_length] at hl
  omega

/-- Claim C6, amended.  For every item that still resolves an image
source (a cover image for `_get_image`; for `_get_episode_image`, for
instance a non-empty cover when no streaming thumbnail applies) and
whose image artifact already exists at its derived path, the caching
operation returns that path with the filesystem untouched (no write)
and no events (no network fetch); and, when a first call fetches
successfully, a second call for the same key returns immediately, for
a total of exactly one fetch across both calls. -/
theorem claim_C6_amended :
    (∀ (dir : FileName) (fetch : PyStr → FetchResult) (item : MediaItem)
      (cover : MediaImage) (b : Bytes) (fs : FS),
      item.cover_image = some cover →
      fsLookup (imageArtifactPath dir (rofiAnimeKey item.title.english)) fs = some b →
      getImage dir fetch item fs =
        (imageArtifactPath dir (rofiAnimeKey item.title.english), fs, [])) ∧
    (∀ (dir : FileName) (fetch : PyStr → FetchResult) (episode : PyStr)
      (item : MediaItem) (cover : MediaImage) (b : Bytes) (fs : FS),
      item.streaming_episodes = [] →
      item.cover_image = some cover →
      ¬ cover.large.isEmpty →
      fsLookup (imageArtifactPath dir (rofiEpisodeKey item.title.english episode)) fs
        = some b →
      getEpisodeImage dir fetch episode item fs =
        (imageArtifactPath dir (rofiEpisodeKey item.title.english episode), fs, [])) ∧
    (∀ (dir : FileName) (fetch : PyStr → FetchResult) (item : MediaItem)
      (cover : MediaImage) (chunks : List Bytes) (fs : FS),
      item.cover_image = some cover →
      ¬ cover.large.isEmpty →
      fsLookup (imageArtifactPath dir (rofiAnimeKey item.title.english)) fs = none →
      fetch cover.large = .ok chunks →
      getImage dir fetch item fs =
        (imageArtifactPath dir (rofiAnimeKey item.title.english),
         applyOps fs (atomicWriterOps
           (imageArtifactPath dir (rofiAnimeKey item.title.english))
           chunks.flatten false),
         [.fetch cover.large]) ∧
      getImage dir fetch item ((getImage dir fetch item fs).2.1) =
        (imageArtifactPath dir (rofiAnimeKey item.title.english),
         (getImage dir fetch item fs).2.1, []) ∧
      fetchCount ((getImage dir fetch item fs).2.2 ++
        (getImage dir fetch item ((getImage dir fetch item fs).2.1)).2.2) = 1) := by
  have partA : ∀ (dir : FileName) (fetch : PyStr → FetchResult) (item : MediaItem)
      (cover : MediaImage) (b : Bytes) (fs : FS),
      item.cover_image = some cover →
      fsLookup (imageArtifactPath dir (rofiAnimeKey item.title.english)) fs = some b →
      getImage dir fetch item fs =
        (imageArtifactPath dir (rofiAnimeKey item.title.english), fs, []) := by
    intro dir fetch item cover b fs hcover hsome
    simp only [getImage, hcover, hsome, Option.isSome_some, if_true]
  refine ⟨partA, ?_, ?_⟩
  · intro dir fetch episode item cover b fs hse hcover hurl hsome
    simp only [getEpisodeImage, hse, List.isEmpty_nil, episodeImageBody, hsome,
      Option.isSome_some, if_true, hcover]
    rw [if_neg hurl]
  · intro dir fetch item cover chunks fs hcover hurl hnone hok
    have hred : getImage dir fetch item fs =
        (imageArtifactPath dir (rofiAnimeKey item.title.english),
         applyOps fs (atomicWriterOps
           (imageArtifactPath dir (rofiAnimeKey item.title.english))
           chunks.flatten false),
         [.fetch cover.large]) := by
      simp only [getImage, hcover, hnone, Option.isSome_none, Bool.false_eq_true,
        if_false, hok]
      rw [if_neg hurl]
    have hsecond := partA dir fetch item cover chunks.flatten
      ((getImage dir fetch item fs).2.1) hcover
      (by rw [hred]; exact atomic_ok_lookup _ _ _)
    refine ⟨hred, hsecond, ?_⟩
    rw [hred] at hsecond ⊢
    rw [hsecond]
    simp [fetchCount]

/-- Witness for the amended C6: a concrete cache hit returns the cached
path without touching the filesystem, and a concrete fetch-then-refetch
pair performs exactly one fetch in total. -/
theorem claim_C6_amended_witness :
    getImage (pystr "img") (fun _ => FetchResult.ok [[1]])
      ⟨⟨pystr "T"⟩, some ⟨pystr "u"⟩, []⟩
      [(imageArtifactPath (pystr "img") (rofiAnimeKey (pystr "T")), [9])] =
      (imageArtifactPath (pystr "img") (rofiAnimeKey (pystr "T")),
       [(imageArtifactPath (pystr "img") (rofiAnimeKey (pystr "T")), [9])], []) ∧
    fetchCount ((getImage (pystr "img") (fun _ => FetchResult.ok [[1]])
        ⟨⟨pystr "T"⟩, some ⟨pystr "u"⟩, []⟩ []).2.2 ++
      (getImage (pystr "img") (fun _ => FetchResult.ok [[1]])
        ⟨⟨pystr "T"⟩, some ⟨pystr "u"⟩, []⟩
        ((getImage (pystr "img") (fun _ => FetchResult.ok [[1]])
          ⟨⟨pystr "T"⟩, some ⟨pystr "u"⟩, []⟩ []).2.1)).2.2) = 1 :=
  ⟨claim_C6_amended.1 (pystr "img") (fun _ => FetchResult.ok [[1]])
      ⟨⟨pystr "T"⟩, some ⟨pystr "u"⟩, []⟩ ⟨pystr "u"⟩ [9]
      [(imageArtifactPath (pystr "img") (rofiAnimeKey (pystr "T")), [9])]
      rfl (by simp [fsLookup]),
   (claim_C6_amended.2.2 (pystr "img") (fun _ => FetchResult.ok [[1]])
      ⟨⟨pystr "T"⟩, some ⟨pystr "u"⟩, []⟩ ⟨pystr "u"⟩ [[1]] []
      rfl (by decide) rfl rfl).2.2⟩

/-- Claim C4, counterexample.  Caching errors are indeed swallowed by
every entry point, but `get_airing_schedule_preview` does not "return
the preview script command string": it writes the script yet returns
the empty string (its command is disabled in the source), which
differs from the command string the other entry points return for
their script files. -/
theorem claim_C4_counterexample :
    (get_airing_schedule_previewM ⟨"/usr/bin/python3", "/cache/previews",
        "/cache/previews/images", "/cache/previews/info", "TPL"⟩
      ⟨"fzf", "full", "icat", "1,2,3", "4,5,6", true⟩ (.error "boom")).ret = "" ∧
    (get_airing_schedule_previewM ⟨"/usr/bin/python3", "/cache/previews",
        "/cache/previews/images", "/cache/previews/info", "TPL"⟩
      ⟨"fzf", "full", "icat", "1,2,3", "4,5,6", true⟩ (.error "boom")).writes.length = 1 ∧
    "" ≠ previewCommand ⟨"/usr/bin/python3", "/cache/previews",
        "/cache/previews/images", "/cache/previews/info", "TPL"⟩
      "airing-schedule-preview-script.py" := by
  refine ⟨rfl, rfl, by decide⟩

/-- Claim C4, amended.  For every fzf-path call to an inbound preview
entry point and every exception raised while starting the background
caching, the exception is caught and logged, the script file is still
generated and written identically to the success case, and the
function still returns its normal value — the preview script command
string for the anime, episode, character and review entry points, and
(by design) the empty string for the airing-schedule entry point; no
caching error is ever propagated to the caller. -/
theorem claim_C4_amended (env : PrevEnv) (cfg : AppCfg) (rofiA rofiE : String)
    (titleEnglish : String) (e : String) (hsel : cfg.selector ≠ "rofi") :
    ((get_anime_previewM env cfg rofiA (.error e)).ret =
        previewCommand env "search-result-preview-script.py" ∧
      (get_anime_previewM env cfg rofiA (.error e)).writes =
        (get_anime_previewM env cfg rofiA (.ok ())).writes ∧
      ("Failed to start background caching: " ++ e) ∈
        (get_anime_previewM env cfg rofiA (.error e)).logs) ∧
    ((get_episode_previewM env cfg titleEnglish rofiE (.error e)).ret =
        previewCommand env "episode-preview-script.py" ∧
      (get_episode_previewM env cfg titleEnglish rofiE (.error e)).writes =
        (get_episode_previewM env cfg titleEnglish rofiE (.ok ())).writes ∧
      ("Failed to start episode background caching: " ++ e) ∈
        (get_episode_previewM env cfg titleEnglish rofiE (.error e)).logs) ∧
    ((get_character_previewM env cfg (.error e)).ret =
        previewCommand env "character-preview-script.py" ∧
      (get_character_previewM env cfg (.error e)).writes =
        (get_character_previewM env cfg (.ok ())).writes ∧
      ("Failed to start episode background caching: " ++ e) ∈
        (get_character_previewM env cfg (.error e)).logs) ∧
    ((get_review_previewM env cfg (.error e)).ret =
        previewCommand env "review-preview-script.py" ∧
      (get_review_previewM env cfg (.error e)).writes =
        (get_review_previewM env cfg (.ok ())).writes ∧
      ("Failed to start episode background caching: " ++ e) ∈
        (get_review_previewM env cfg (.error e)).logs) ∧
    ((get_airing_schedule_previewM env cfg (.error e)).ret = "" ∧
      (get_airing_schedule_previewM env cfg (.error e)).writes =
        (get_airing_schedule_previewM env cfg (.ok ())).writes ∧
      ("Failed to start episode background caching: " ++ e) ∈
        (get_airing_schedule_previewM env cfg (.error e)).logs) := by
  constructor
  · refine ⟨?_, ?_, ?_⟩ <;> simp [get_anime_previewM, hsel]
  constructor
  · refine ⟨?_, ?_, ?_⟩ <;> simp [get_episode_previewM, hsel]
  exact ⟨⟨rfl, rfl, by simp [get_character_previewM]⟩,
    ⟨rfl, rfl, by simp [get_review_previewM]⟩,
    rfl, rfl, by simp [get_airing_schedule_previewM]⟩

/-- Witness for the amended C4: concrete environment and configuration,
with a concrete caching exception. -/
theorem claim_C4_amended_witness :
    (get_anime_previewM ⟨"/usr/bin/python3", "/cache/previews",
        "/cache/previews/images", "/cache/previews/info", "TPL"⟩
      ⟨"fzf", "full", "icat", "1,2,3", "4,5,6", true⟩ "R" (.error "boom")).ret =
      previewCommand ⟨"/usr/bin/python3", "/cache/previews",
        "/cache/previews/images", "/cache/previews/info", "TPL"⟩
      "search-result-preview-script.py" :=
  (claim_C4_amended ⟨"/usr/bin/python3", "/cache/previews",
      "/cache/previews/images", "/cache/previews/info", "TPL"⟩
    ⟨"fzf", "full", "icat", "1,2,3", "4,5,6", true⟩ "R" "R2" "T" "boom"
    (by decide)).1.1

/-- Claim C7, confirmed.  Within one process and with no intervening
shutdown, the first `_get_preview_manager` call constructs the manager
and every subsequent call returns that very same instance: a call
sequence starting from the empty module state returns the first
constructed instance every time, whatever instances later calls could
have constructed. -/
theorem claim_C7 (f : Nat) (rest : List Nat) :
    managerCalls none (f :: rest) = f :: List.replicate rest.length f := by
  have h : ∀ (l : List Nat) (m : Nat),
      managerCalls (some m) l = List.replicate l.length m := by
    intro l
    induction l with
    | nil => intro m; rfl
    | cons x xs ih =>
      intro m
      simp [managerCalls, getPreviewManagerM, ih, List.replicate]
  simp [managerCalls, getPreviewManagerM, h]

/-- Claim C8, confirmed.  For every `with`-use of `PreviewContext` in
which a preview was requested (the manager is bound), every exit path
— normal return, exception, or interrupt — performs the `__exit__`
call `shutdown_all(wait=False, timeout=3.0)` exactly once (exactly one
more `shutdown_all` than the body itself made), whether or not that
call raises; and with `wait=False` the request does not block on
in-flight work (spec-modelled behaviour of `shutdown_all`). -/
theorem claim_C8 (ctx : PreviewCtx) (m : Nat) (bodyEvents : List MgrEvent)
    (path : ExitPath) (raises : Bool) (hbound : ctx.manager = some m) :
    (previewContextExit ctx raises).1 = [.shutdownAll m false (some 3)] ∧
    shutdownCount (runWithPreviewContext ctx bodyEvents path raises).1 =
      shutdownCount bodyEvents + 1 ∧
    (runWithPreviewContext ctx bodyEvents path raises).2 = path ∧
    shutdownAllBlocks false = false := by
  have hexit : (previewContextExit ctx raises).1 = [.shutdownAll m false (some 3)] := by
    simp [previewContextExit, hbound]
  refine ⟨hexit, ?_, rfl, rfl⟩
  simp [runWithPreviewContext, hexit, shutdownCount, List.filter_append]

/-- Witness for C8: a bound context, a body that made no manager
calls, and an interrupt exit path. -/
theorem claim_C8_witness :
    (previewContextExit ⟨some 5⟩ false).1 = [.shutdownAll 5 false (some 3)] ∧
    shutdownCount (runWithPreviewContext ⟨some 5⟩ [] .interrupt false).1 =
      shutdownCount [] + 1 ∧
    (runWithPreviewContext ⟨some 5⟩ [] .interrupt false).2 = .interrupt ∧
    shutdownAllBlocks false = false :=
  claim_C8 ⟨some 5⟩ 5 [] .interrupt false rfl

/-- Claim C10, confirmed.  `shutdown_preview_workers` is a no-op when no
manager has ever been created (state `None`): no state change and no
manager calls.  Otherwise it calls `shutdown_all(wait, timeout)` on
the stored manager and clears the global, so the next
`_get_preview_manager` call constructs and returns a fresh instance —
in particular a different object from the shut-down one. -/
theorem claim_C10 :
    (∀ (wait : Bool) (timeout : Option ℚ),
      shutdown_preview_workersM none wait timeout = (none, [])) ∧
    (∀ (m : Nat) (wait : Bool) (timeout : Option ℚ),
      shutdown_preview_workersM (some m) wait timeout =
        (none, [.shutdownAll m wait timeout])) ∧
    (∀ (m f : Nat) (wait : Bool) (timeout : Option ℚ),
      getPreviewManagerM (shutdown_preview_workersM (some m) wait timeout).1 f =
        (f, some f)) ∧
    (∀ (m f : Nat) (wait : Bool) (timeout : Option ℚ), f ≠ m →
      (getPreviewManagerM (shutdown_preview_workersM (some m) wait timeout).1 f).1 ≠ m) :=
  ⟨fun _ _ => rfl, fun _ _ _ => rfl, fun _ _ _ _ => rfl, fun _ _ _ _ h => h⟩

/-- Witness for C10: shutting down the manager `7` and re-acquiring
constructs the fresh instance `8`, not `7`. -/
theorem claim_C10_witness :
    shutdown_preview_workersM none true (some 5) = (none, []) ∧
    shutdown_preview_workersM (some 7) true (some 5) =
      (none, [.shutdownAll 7 true (some 5)]) ∧
    getPreviewManagerM (shutdown_preview_workersM (some 7) true (some 5)).1 8 =
      (8, some 8) ∧
    (getPreviewManagerM (shutdown_preview_workersM (some 7) true (some 5)).1 8).1 ≠ 7 :=
  ⟨claim_C10.1 true (some 5), claim_C10.2.1 7 true (some 5),
   claim_C10.2.2.1 7 8 true (some 5), claim_C10.2.2.2 7 8 true (some 5) (by decide)⟩

/-- Claim C9, confirmed.  The renderer never terminates with an uncaught
exception: for every input no exception propagates; a
`KeyboardInterrupt` during `main` produces no output at all; any other
exception is printed as a `Preview Error: ...` line; and in image mode
with the image artifact absent the renderer prints the loading
placeholder instead of failing. -/
theorem claim_C9 :
    (∀ (cfg : RenderCfg) (existing : List String) (interrupted : Bool),
      (fzfScript cfg existing interrupted).2 = none) ∧
    (∀ (cfg : RenderCfg) (existing : List String),
      (fzfScript cfg existing true).1 = []) ∧
    (∀ (cfg : RenderCfg) (existing : List String) (e : String),
      fzfMain cfg existing = .error e →
      (fzfScript cfg existing false).1 = ["Preview Error: " ++ e]) ∧
    (∀ (cfg : RenderCfg) (existing : List String) (rgb : Nat × Nat × Nat),
      cfg.previewMode = "image" →
      parseRGB cfg.sepColor = some rgb →
      ¬ (cfg.pfx = "character" ∨ cfg.pfx = "review" ∨ cfg.pfx = "airing-schedule") →
      fzfImagePath cfg ∉ existing →
      "🖼️  Loading image..." ∈ (fzfScript cfg existing false).1) := by
  refine ⟨?_, ?_, ?_, ?_⟩
  · intro cfg existing interrupted
    cases interrupted with
    | true => rfl
    | false =>
      simp only [fzfScript, Bool.false_eq_true, if_false]
      cases h : fzfMain cfg existing with
      | ok out => simp [mainGuard]
      | error e => simp [mainGuard]
  · intro cfg existing
    rfl
  · intro cfg existing e h
    simp [fzfScript, h, mainGuard]
  · intro cfg existing rgb hmode hrgb hpfx habsent
    have htext : fzfTextInfo cfg existing = .ok ["<separator>"] := by
      simp [fzfTextInfo, hrgb, hmode]
    have himg : fzfMainImage cfg existing = ["🖼️  Loading image..."] := by
      simp [fzfMainImage, hmode, hpfx, habsent]
    simp [fzfScript, fzfMain, htext, himg, mainGuard]

/-- Witness for C9: a concrete renderer input in image mode with an
empty cache prints the loading placeholder and propagates nothing. -/
theorem claim_C9_witness :
    (fzfScript ⟨"image", "search-result", "", "T", "/img", "/info", "1,2,3", "4,5,6"⟩
      [] false).2 = none ∧
    "🖼️  Loading image..." ∈
      (fzfScript ⟨"image", "search-result", "", "T", "/img", "/info", "1,2,3", "4,5,6"⟩
        [] false).1 :=
  ⟨claim_C9.1 _ [] false,
   claim_C9.2.2.2 ⟨"image", "search-result", "", "T", "/img", "/info", "1,2,3", "4,5,6"⟩
     [] (4, 5, 6) rfl (by decide) (by decide) (by simp)⟩

end Viu
